import Mathlib

/-!
Shallow embedding of the solar-position / equation-of-time engine of the
analemma repository, together with theorems settling the claims about it.

Sources embedded:
- `simulation.js`, class `AnalemmaSimulation` (namespace `Sim` below);
- `sky.js`, class `SkySimulation` (namespace `Sky` below);
- the Solograph source file, class `Solograph` (namespace `Solo` below).

JavaScript numbers are modelled by real numbers; `Math.sin`, `Math.asin`,
`Math.atan2`, ... by the corresponding real functions.  Mutable instance
fields (tilt, eccentricity, perihelionDay, latitude, toggle flags) become
explicit parameters of the embedded methods.
-/

noncomputable section

namespace Analemma

/-- `toRad(deg)` of all three classes: degrees to radians. -/
def toRad (deg : ℝ) : ℝ := deg * Real.pi / 180

/-- `toDeg(rad)` of all three classes: radians to degrees. -/
def toDeg (rad : ℝ) : ℝ := rad * 180 / Real.pi

/-- Truncation toward zero, the rounding used by the JavaScript `%` operator. -/
def rtrunc (z : ℝ) : ℤ := if 0 ≤ z then ⌊z⌋ else ⌈z⌉

/-- The JavaScript remainder operator `x % y` on (finite, nonzero-divisor)
numbers: `x - y * truncate(x / y)`; the result carries the sign of `x`. -/
def jsMod (x y : ℝ) : ℝ := x - y * (rtrunc (x / y) : ℝ)

/-- JavaScript `Math.atan2(y, x)` on real (non-NaN, finite) inputs. -/
def atan2 (y x : ℝ) : ℝ :=
  if 0 < x then Real.arctan (y / x)
  else if x < 0 ∧ 0 ≤ y then Real.arctan (y / x) + Real.pi
  else if x < 0 ∧ y < 0 then Real.arctan (y / x) - Real.pi
  else if x = 0 ∧ 0 < y then Real.pi / 2
  else if x = 0 ∧ y < 0 then -(Real.pi / 2)
  else 0

/-- A `{altitude, azimuth}` record (degrees), as returned by the
`equatorialToHorizontal` methods. -/
structure SolarPosition where
  altitude : ℝ
  azimuth : ℝ

/-- The record returned by `Solograph.getSunTimes`.  The two flags are JS
object fields that are present in some branches and absent in others, so they
are modelled as `Option Bool` (`none` = field absent). -/
structure SunTimes where
  sunrise : ℝ
  sunset : ℝ
  dayLength : ℝ
  neverRises : Option Bool
  neverSets : Option Bool

/-- The record returned by `AnalemmaSimulation.getEOTComponents` (minutes). -/
structure EOTComponents where
  eccentricity : ℝ
  obliquity : ℝ

/-- A `{day, altitude, azimuth}` entry pushed by
`Solograph.initializeHourTraces`. -/
structure TracePoint where
  day : ℝ
  altitude : ℝ
  azimuth : ℝ

/-- A `{hour, altitude, azimuth}` entry pushed by `Solograph.getSunPath`. -/
structure PathPoint where
  hour : ℝ
  altitude : ℝ
  azimuth : ℝ

namespace Sim

/-- `AnalemmaSimulation.getMeanAnomaly(day)`;
`pday` is the instance field `params.perihelionDay`. -/
def getMeanAnomaly (pday day : ℝ) : ℝ :=
  toRad (360 * jsMod (day - pday + 365) 365 / 365)

/-- `AnalemmaSimulation.getTrueAnomaly(meanAnomaly)`;
`e` is the instance field `params.eccentricity`. -/
def getTrueAnomaly (e M : ℝ) : ℝ :=
  M + ((2 * e - e * e * e / 4) * Real.sin M
    + (5 * e * e / 4) * Real.sin (2 * M)
    + (13 * e * e * e / 12) * Real.sin (3 * M))

/-- `AnalemmaSimulation.getSolarLongitude(day)`. -/
def getSolarLongitude (e pday day : ℝ) : ℝ :=
  let meanLongitude := toRad (360 * (day - 80) / 365)
  let meanAnomaly := getMeanAnomaly pday day
  let trueAnomaly := getTrueAnomaly e meanAnomaly
  meanLongitude + (trueAnomaly - meanAnomaly)

/-- `AnalemmaSimulation.getSolarDeclination(day)` (degrees);
`tilt` is the instance field `params.tilt`. -/
def getSolarDeclination (tilt e pday day : ℝ) : ℝ :=
  toDeg (Real.arcsin (Real.sin (toRad tilt) * Real.sin (getSolarLongitude e pday day)))

/-- The local `eccentricityEffect` computed inside
`AnalemmaSimulation.getEOTComponents` (radians). -/
def eccEffect (e pday day : ℝ) : ℝ :=
  -2 * e * Real.sin (getMeanAnomaly pday day)
    - 1.25 * e * e * Real.sin (2 * getMeanAnomaly pday day)

/-- The local `obliquityEffect` computed inside
`AnalemmaSimulation.getEOTComponents` (radians). -/
def oblEffect (tilt day : ℝ) : ℝ :=
  let y := Real.tan (toRad tilt / 2)
  let y2 := y * y
  y2 * Real.sin (2 * toRad (360 * (day - 80) / 365))
    - 0.5 * y2 * y2 * Real.sin (4 * toRad (360 * (day - 80) / 365))

/-- `AnalemmaSimulation.getEOTComponents(day)` (minutes; the source multiplies
each radian effect by the literal constant `229.18`). -/
def getEOTComponents (tilt e pday day : ℝ) : EOTComponents :=
  ⟨eccEffect e pday day * 229.18, oblEffect tilt day * 229.18⟩

/-- `AnalemmaSimulation.getEquationOfTime(day)`; `showEcc` / `showTilt` are the
instance flags `params.showEccentricityComponent` / `params.showTiltComponent`. -/
def getEquationOfTime (showEcc showTilt : Bool) (tilt e pday day : ℝ) : ℝ :=
  (if showEcc then (getEOTComponents tilt e pday day).eccentricity else 0)
    + (if showTilt then (getEOTComponents tilt e pday day).obliquity else 0)

/-- `AnalemmaSimulation.getOrbitalSpeed(day)`. -/
def getOrbitalSpeed (e pday day : ℝ) : ℝ :=
  1 + e * Real.cos (getTrueAnomaly e (getMeanAnomaly pday day))

end Sim

namespace Sky

/-- The constructor constant `this.tilt = 23.44` of `SkySimulation`. -/
def tilt : ℝ := 23.44

/-- The constructor constant `this.eccentricity = 0.0167` of `SkySimulation`. -/
def eccentricity : ℝ := 0.0167

/-- The constructor constant `this.perihelionDay = 3` of `SkySimulation`. -/
def perihelionDay : ℝ := 3

/-- `SkySimulation.getMeanAnomaly(day)`. -/
def getMeanAnomaly (pday day : ℝ) : ℝ :=
  toRad (360 * jsMod (day - pday + 365) 365 / 365)

/-- `SkySimulation.getTrueAnomaly(M)`: two-term series, no cubic terms. -/
def getTrueAnomaly (e M : ℝ) : ℝ :=
  M + 2 * e * Real.sin M + 1.25 * e * e * Real.sin (2 * M)

/-- `SkySimulation.getDeclination(day)` (radians). -/
def getDeclination (tlt e pday day : ℝ) : ℝ :=
  let obliquity := toRad tlt
  let M := getMeanAnomaly pday day
  let v := getTrueAnomaly e M
  let perihelionLongitude := toRad (360 * (pday - 80) / 365)
  let solarLongitude := v + perihelionLongitude + Real.pi
  Real.arcsin (Real.sin obliquity * Real.sin solarLongitude)

/-- `SkySimulation.getEquationOfTime(day)` (hours). -/
def getEquationOfTime (tlt e pday day : ℝ) : ℝ :=
  let obliquity := toRad tlt
  let M := getMeanAnomaly pday day
  let L := toRad (360 * (day - 80) / 365)
  let eccentricityEffect := -2 * e * Real.sin M - 1.25 * e * e * Real.sin (2 * M)
  let y := Real.tan (obliquity / 2)
  let y2 := y * y
  let obliquityEffect := y2 * Real.sin (2 * L) - 0.5 * y2 * y2 * Real.sin (4 * L)
  (eccentricityEffect + obliquityEffect) * 24 / (2 * Real.pi)

/-- `SkySimulation.equatorialToHorizontal(hourAngle, declination, latitude)`:
no clamp on `sinAlt`, unguarded denominators. -/
def equatorialToHorizontal (hourAngle declination latitude : ℝ) : SolarPosition :=
  let ha := toRad (hourAngle * 15)
  let dec := declination
  let lat := toRad latitude
  let sinAlt := Real.sin dec * Real.sin lat + Real.cos dec * Real.cos lat * Real.cos ha
  let altitude := Real.arcsin sinAlt
  let cosAz := (Real.sin dec - Real.sin lat * sinAlt) / (Real.cos lat * Real.cos altitude)
  let sinAz := -Real.sin ha * Real.cos dec / Real.cos altitude
  let azimuth := atan2 sinAz cosAz
  ⟨toDeg altitude, toDeg azimuth⟩

/-- `SkySimulation.getSunPosition(day, hour)`: the hour angle is shifted by the
equation of time (`solarHour = hour + eot`). -/
def getSunPosition (tlt e pday lat day hour : ℝ) : SolarPosition :=
  let declination := getDeclination tlt e pday day
  let eot := getEquationOfTime tlt e pday day
  let solarHour := hour + eot
  let hourAngle := solarHour - 12
  equatorialToHorizontal hourAngle declination lat

end Sky

namespace Solo

/-- The constructor constant `this.tilt = 23.44` of `Solograph`. -/
def tilt : ℝ := 23.44

/-- `Solograph.getDeclination(day)` (radians): simple spring-equinox-offset
approximation, no Kepler correction. -/
def getDeclination (tlt day : ℝ) : ℝ :=
  Real.arcsin (Real.sin (toRad tlt) * Real.sin (toRad (360 * (day - 80) / 365)))

/-- `Solograph.equatorialToHorizontal(hourAngle, declination, latitude)`:
clamps `sinAlt` into [-1, 1] and pads both azimuth denominators with the
additive constant `0.0001`. -/
def equatorialToHorizontal (hourAngle declination latitude : ℝ) : SolarPosition :=
  let ha := toRad (hourAngle * 15)
  let dec := declination
  let lat := toRad latitude
  let sinAlt := Real.sin dec * Real.sin lat + Real.cos dec * Real.cos lat * Real.cos ha
  let altitude := Real.arcsin (max (-1) (min 1 sinAlt))
  let cosAz := (Real.sin dec - Real.sin lat * sinAlt) /
    (Real.cos lat * Real.cos altitude + 0.0001)
  let sinAz := -Real.sin ha * Real.cos dec / (Real.cos altitude + 0.0001)
  let azimuth := atan2 sinAz cosAz
  ⟨toDeg altitude, toDeg azimuth⟩

/-- The position computed in the body of the `initializeHourTraces` loop for a
given clock hour and day: hour angle is `hour - 12`, with no equation-of-time
shift. -/
def tracePos (tlt lat hour day : ℝ) : SolarPosition :=
  equatorialToHorizontal (hour - 12) (getDeclination tlt day) lat

/-- The `{day, altitude, azimuth}` record pushed by `initializeHourTraces`. -/
def tracePoint (tlt lat hour day : ℝ) : TracePoint :=
  ⟨day, (tracePos tlt lat hour day).altitude, (tracePos tlt lat hour day).azimuth⟩

/-- One entry `this.hourTraces[hour]` built by `initializeHourTraces`: the loop
`for (day = 1; day <= 365; day++)` pushes 365 records in ascending day order. -/
def hourTrace (tlt lat hour : ℝ) : List TracePoint :=
  (List.range 365).map fun (i : ℕ) => tracePoint tlt lat hour ((i : ℝ) + 1)

/-- `Solograph.initializeHourTraces()`: the association of each clock hour
`5, 6, ..., 19` with its precomputed 365-entry analemma trace. -/
def hourTraces (tlt lat : ℝ) : List (ℕ × List TracePoint) :=
  (List.range 15).map fun (h : ℕ) => (h + 5, hourTrace tlt lat ((h : ℝ) + 5))

/-- `Solograph.getSunPath(day)`: the loop
`for (minutes = 0; minutes < 24 * 60; minutes += 5)` runs 288 iterations with
`hour = minutes / 60`. -/
def getSunPath (tlt lat day : ℝ) : List PathPoint :=
  (List.range 288).map fun (i : ℕ) =>
    let hour : ℝ := 5 * (i : ℝ) / 60
    ⟨hour,
      (equatorialToHorizontal (hour - 12) (getDeclination tlt day) lat).altitude,
      (equatorialToHorizontal (hour - 12) (getDeclination tlt day) lat).azimuth⟩

/-- The local `cosHa` computed inside `Solograph.getSunTimes`. -/
def cosHa (tlt lat day : ℝ) : ℝ :=
  -Real.tan (toRad lat) * Real.tan (getDeclination tlt day)

/-- `Solograph.getSunTimes(day)`.  The midnight-sun branch returns an object
with a `neverSets` field only, the polar-night branch a `neverRises` field
only, and the ordinary branch neither. -/
def getSunTimes (tlt lat day : ℝ) : SunTimes :=
  if cosHa tlt lat day < -1 then
    ⟨0, 24, 24, none, some true⟩
  else if 1 < cosHa tlt lat day then
    ⟨12, 12, 0, some true, none⟩
  else
    let ha := toDeg (Real.arccos (cosHa tlt lat day)) / 15
    let sunrise := 12 - ha
    let sunset := 12 + ha
    ⟨sunrise, sunset, sunset - sunrise, none, none⟩

end Solo

/-- The equally spaced mean-anomaly grid value `2πk/365` that
`Sim.getMeanAnomaly` produces on the integer days `0 ≤ k < 365` when
`perihelionDay = 365` (used to analyse the yearly mean of
`getOrbitalSpeed`). -/
def gridAngle (k : ℕ) : ℝ := 2 * Real.pi * k / 365

/-- The equation-of-center correction added by `Sim.getTrueAnomaly` at
eccentricity `1/100`: `Sim.getTrueAnomaly (1/100) M = M + corr100 M`. -/
def corr100 (x : ℝ) : ℝ :=
  (2 * (1 / 100) - (1 / 100) * (1 / 100) * (1 / 100) / 4) * Real.sin x
    + (5 * (1 / 100) * (1 / 100) / 4) * Real.sin (2 * x)
    + (13 * (1 / 100) * (1 / 100) * (1 / 100) / 12) * Real.sin (3 * x)

/-! ## Helper lemmas -/

/-- For a nonnegative argument, the JavaScript remainder is the floor-based
mathematical remainder. -/
theorem jsMod_of_nonneg {x y : ℝ} (hx : 0 ≤ x) (hy : 0 < y) :
    jsMod x y = x - y * (⌊x / y⌋ : ℝ) := by
  unfold jsMod rtrunc
  rw [if_pos (div_nonneg hx hy.le)]

theorem jsMod_442_365 : jsMod ((80 : ℝ) - 3 + 365) 365 = 77 := by
  have h : ((80 : ℝ) - 3 + 365) = 442 := by norm_num
  rw [h, jsMod_of_nonneg (by norm_num) (by norm_num)]
  have hf : ⌊(442 : ℝ) / 365⌋ = 1 := by
    rw [Int.floor_eq_iff]
    norm_num
  rw [hf]
  norm_num

/-! ## C4: true anomaly series -/

/-- C4 counterexample: the claim states that `getTrueAnomaly` returns the
equation-of-center series with terms through `e³` for every mean anomaly and
eccentricity, citing both `simulation.js` and `sky.js`.  The `sky.js` variant
drops the cubic terms, so at `e = 1/10`, `M = π/2` it does not return the
claimed value. -/
theorem C4_counterexample :
    Sky.getTrueAnomaly (1 / 10) (Real.pi / 2) ≠
      Real.pi / 2 + (2 * (1 / 10) - (1 / 10) ^ 3 / 4) * Real.sin (Real.pi / 2)
        + (5 * (1 / 10) ^ 2 / 4) * Real.sin (2 * (Real.pi / 2))
        + (13 * (1 / 10) ^ 3 / 12) * Real.sin (3 * (Real.pi / 2)) := by
  have h2 : (2 : ℝ) * (Real.pi / 2) = Real.pi := by ring
  have h3 : (3 : ℝ) * (Real.pi / 2) = Real.pi + Real.pi / 2 := by ring
  have hs3 : Real.sin (Real.pi + Real.pi / 2) = -1 := by
    rw [Real.sin_add, Real.sin_pi, Real.cos_pi, Real.sin_pi_div_two]
    ring
  unfold Sky.getTrueAnomaly
  rw [h2, h3, hs3, Real.sin_pi, Real.sin_pi_div_two]
  intro h
  norm_num at h
  linarith

/-- C4 amended: `simulation.js`'s `getTrueAnomaly` returns exactly the series
with terms through `e³`, while `sky.js`'s `getTrueAnomaly` returns the
truncated series `M + 2e·sin M + 1.25e²·sin 2M` with no cubic terms. -/
theorem C4_trueAnomaly_series : ∀ e M : ℝ,
    Sim.getTrueAnomaly e M =
      M + (2 * e - e ^ 3 / 4) * Real.sin M + (5 * e ^ 2 / 4) * Real.sin (2 * M)
        + (13 * e ^ 3 / 12) * Real.sin (3 * M)
    ∧ Sky.getTrueAnomaly e M =
        M + 2 * e * Real.sin M + (5 * e ^ 2 / 4) * Real.sin (2 * M) := by
  intro e M
  constructor
  · unfold Sim.getTrueAnomaly
    ring
  · unfold Sky.getTrueAnomaly
    ring_nf

/-! ## C5: mean anomaly -/

/-- C5: for every day in `[0, 365)` and perihelion day in `[1, 365]`,
`getMeanAnomaly(day)` equals `2π·((day − perihelionDay + 365) mod 365)/365`
(positive-result modulo, expressed via `Int.fract`), lies in `[0, 2π)`, and
the `sky.js` copy agrees with the `simulation.js` one. -/
theorem C5_meanAnomaly (pday day : ℝ)
    (h0 : 0 ≤ day) (h1 : day < 365) (h2 : 1 ≤ pday) (h3 : pday ≤ 365) :
    Sim.getMeanAnomaly pday day = 2 * Real.pi * Int.fract ((day - pday + 365) / 365)
    ∧ 0 ≤ Sim.getMeanAnomaly pday day
    ∧ Sim.getMeanAnomaly pday day < 2 * Real.pi
    ∧ Sky.getMeanAnomaly pday day = Sim.getMeanAnomaly pday day := by
  have hx : 0 ≤ day - pday + 365 := by linarith
  have hmod : jsMod (day - pday + 365) 365 = 365 * Int.fract ((day - pday + 365) / 365) := by
    rw [jsMod_of_nonneg hx (by norm_num), Int.fract]
    field_simp
  have heq : Sim.getMeanAnomaly pday day
      = 2 * Real.pi * Int.fract ((day - pday + 365) / 365) := by
    unfold Sim.getMeanAnomaly toRad
    rw [hmod]
    field_simp
    ring
  refine ⟨heq, ?_, ?_, rfl⟩
  · rw [heq]
    have := Int.fract_nonneg ((day - pday + 365) / 365)
    positivity
  · rw [heq]
    have hlt := Int.fract_lt_one ((day - pday + 365) / 365)
    have hpi := Real.pi_pos
    nlinarith [Int.fract_nonneg ((day - pday + 365) / 365)]

/-- C5 witness: the theorem applied at `perihelionDay = 3`, `day = 0`. -/
theorem C5_meanAnomaly_witness :
    0 ≤ Sim.getMeanAnomaly 3 0 ∧ Sim.getMeanAnomaly 3 0 < 2 * Real.pi :=
  ⟨(C5_meanAnomaly 3 0 (by norm_num) (by norm_num) (by norm_num) (by norm_num)).2.1,
   (C5_meanAnomaly 3 0 (by norm_num) (by norm_num) (by norm_num) (by norm_num)).2.2.1⟩

/-! ## Facts about day 80 (used by C3 and C7) -/

theorem meanAnomaly80 : Sim.getMeanAnomaly 3 80 = 2 * Real.pi * 77 / 365 := by
  unfold Sim.getMeanAnomaly toRad
  rw [jsMod_442_365]
  ring

theorem sin_M80_pos : 0 < Real.sin (2 * Real.pi * 77 / 365) := by
  apply Real.sin_pos_of_pos_of_lt_pi
  · positivity
  · nlinarith [Real.pi_pos]

theorem sin_2M80_pos : 0 < Real.sin (2 * (2 * Real.pi * 77 / 365)) := by
  apply Real.sin_pos_of_pos_of_lt_pi
  · positivity
  · nlinarith [Real.pi_pos]

theorem eccEffect80_neg : Sim.eccEffect 0.017 3 80 < 0 := by
  unfold Sim.eccEffect
  rw [meanAnomaly80]
  nlinarith [sin_M80_pos, sin_2M80_pos]

theorem oblEffect80_zero : Sim.oblEffect 23.4 80 = 0 := by
  unfold Sim.oblEffect
  have h : toRad (360 * ((80 : ℝ) - 80) / 365) = 0 := by
    unfold toRad
    norm_num
  rw [h]
  norm_num

/-! ## C7: equation of time and its toggle flags -/

/-- C7 counterexample: the claim states the conversion factor is
`1440/(2π) ≈ 229.18`, but the source multiplies by the literal `229.18`,
which differs from `1440/(2π) = 229.1831...`; at day 80 (both flags on) the
eccentricity effect is nonzero, so the two factors give different values. -/
theorem C7_counterexample :
    Sim.getEquationOfTime true true 23.4 0.017 3 80 ≠
      (Sim.eccEffect 0.017 3 80 + Sim.oblEffect 23.4 80) * (1440 / (2 * Real.pi)) := by
  have hecc := eccEffect80_neg
  unfold Sim.getEquationOfTime Sim.getEOTComponents
  rw [oblEffect80_zero]
  simp only [if_true]
  intro h
  have hpi := Real.pi_pos
  have hpi2 := Real.pi_lt_d6
  field_simp [Real.pi_ne_zero] at h
  nlinarith [mul_pos (neg_pos.mpr hecc) (show (0 : ℝ) < 1440 - 229.18 * (2 * Real.pi) by nlinarith)]

/-- C7 amended: `getEquationOfTime` is the sum of exactly the flag-enabled
components of `getEOTComponents`, each component being its radian effect times
the literal factor `229.18` (the code's rounding of `1440/(2π)`); the
components are retrievable independently of the flags, and with both flags
off the result is exactly `0`. -/
theorem C7_eot_components : ∀ (se st : Bool) (tlt e pday day : ℝ),
    Sim.getEquationOfTime se st tlt e pday day =
      (if se then (Sim.getEOTComponents tlt e pday day).eccentricity else 0)
        + (if st then (Sim.getEOTComponents tlt e pday day).obliquity else 0)
    ∧ (Sim.getEOTComponents tlt e pday day).eccentricity
        = Sim.eccEffect e pday day * 229.18
    ∧ (Sim.getEOTComponents tlt e pday day).obliquity
        = Sim.oblEffect tlt day * 229.18
    ∧ Sim.getEquationOfTime true true tlt e pday day
        = (Sim.eccEffect e pday day + Sim.oblEffect tlt day) * 229.18
    ∧ Sim.getEquationOfTime false false tlt e pday day = 0 := by
  intro se st tlt e pday day
  refine ⟨rfl, rfl, rfl, ?_, ?_⟩
  · unfold Sim.getEquationOfTime Sim.getEOTComponents
    simp only [if_true]
    ring
  · unfold Sim.getEquationOfTime
    simp

/-! ## C6: declination bounded by tilt -/

/-- Core bound: for `t ∈ [0, π/2]` and `|s| ≤ 1`,
`|asin(sin t · s)| ≤ t`. -/
theorem abs_arcsin_sin_mul_le {t s : ℝ} (ht0 : 0 ≤ t) (ht : t ≤ Real.pi / 2)
    (hs : |s| ≤ 1) : |Real.arcsin (Real.sin t * s)| ≤ t := by
  have hsin_nonneg : 0 ≤ Real.sin t :=
    Real.sin_nonneg_of_nonneg_of_le_pi ht0 (by linarith [Real.pi_pos])
  have h1 : |Real.sin t * s| ≤ Real.sin t := by
    rw [abs_mul, abs_of_nonneg hsin_nonneg]
    nlinarith [abs_nonneg s]
  have harcsin_t : Real.arcsin (Real.sin t) = t := Real.arcsin_sin (by linarith) ht
  rw [abs_le]
  constructor
  · have h2 : -(Real.sin t) ≤ Real.sin t * s := by
      have := (abs_le.mp h1).1
      linarith
    calc -t = Real.arcsin (-(Real.sin t)) := by rw [Real.arcsin_neg, harcsin_t]
    _ ≤ Real.arcsin (Real.sin t * s) := Real.monotone_arcsin h2
  · calc Real.arcsin (Real.sin t * s) ≤ Real.arcsin (Real.sin t) :=
      Real.monotone_arcsin (abs_le.mp h1).2
    _ = t := harcsin_t

/-- C6: for any tilt in `[0, 90]` (and any eccentricity / perihelion day),
the solar declination is bounded by the tilt — in degrees for the
`simulation.js` model, in radians for the Solograph model — and with
`tilt = 0` both declinations are identically `0`. -/
theorem C6_declination_bounded : ∀ tlt e pday day : ℝ, 0 ≤ tlt → tlt ≤ 90 →
    |Sim.getSolarDeclination tlt e pday day| ≤ tlt
    ∧ |Solo.getDeclination tlt day| ≤ toRad tlt
    ∧ Sim.getSolarDeclination 0 e pday day = 0
    ∧ Solo.getDeclination 0 day = 0 := by
  intro tlt e pday day h0 h90
  have hpi := Real.pi_pos
  have htr0 : 0 ≤ toRad tlt := by
    unfold toRad
    positivity
  have htr2 : toRad tlt ≤ Real.pi / 2 := by
    unfold toRad
    nlinarith
  refine ⟨?_, ?_, ?_, ?_⟩
  · have h := abs_arcsin_sin_mul_le htr0 htr2
      (Real.abs_sin_le_one (Sim.getSolarLongitude e pday day))
    unfold Sim.getSolarDeclination toDeg
    rw [abs_div, abs_mul, abs_of_pos hpi]
    rw [div_le_iff₀ hpi]
    have h180 : |(180 : ℝ)| = 180 := by norm_num
    rw [h180]
    have htr_eq : toRad tlt = tlt * Real.pi / 180 := rfl
    linarith [h]
  · unfold Solo.getDeclination
    exact abs_arcsin_sin_mul_le htr0 htr2
      (Real.abs_sin_le_one (toRad (360 * (day - 80) / 365)))
  · unfold Sim.getSolarDeclination toRad toDeg
    norm_num
  · unfold Solo.getDeclination toRad
    norm_num

/-- C6 witness: the theorem applied at the default parameters and day 172. -/
theorem C6_declination_bounded_witness :
    |Sim.getSolarDeclination 23.4 0.017 3 172| ≤ 23.4
    ∧ |Solo.getDeclination 23.44 172| ≤ toRad 23.44 :=
  ⟨(C6_declination_bounded 23.4 0.017 3 172 (by norm_num) (by norm_num)).1,
   (C6_declination_bounded 23.44 0 0 172 (by norm_num) (by norm_num)).2.1⟩

/-! ## C2 and C10: sunrise / sunset policy -/

/-- C2: `getSunTimes` computes `cosHa = -tan(lat)·tan(declination)` and follows
the three-branch policy of the claim; in particular whenever neither flag field
is present, `sunrise + sunset = 24` and
`dayLength = sunset - sunrise ∈ [0, 24]`. -/
theorem C2_sunTimes : ∀ tlt lat day : ℝ,
    Solo.cosHa tlt lat day = -Real.tan (toRad lat) * Real.tan (Solo.getDeclination tlt day)
    ∧ (Solo.cosHa tlt lat day < -1 →
        Solo.getSunTimes tlt lat day = ⟨0, 24, 24, none, some true⟩)
    ∧ (1 < Solo.cosHa tlt lat day →
        Solo.getSunTimes tlt lat day = ⟨12, 12, 0, some true, none⟩)
    ∧ (¬ Solo.cosHa tlt lat day < -1 → ¬ 1 < Solo.cosHa tlt lat day →
        (Solo.getSunTimes tlt lat day).sunrise
            = 12 - toDeg (Real.arccos (Solo.cosHa tlt lat day)) / 15
        ∧ (Solo.getSunTimes tlt lat day).sunset
            = 12 + toDeg (Real.arccos (Solo.cosHa tlt lat day)) / 15)
    ∧ ((Solo.getSunTimes tlt lat day).neverRises = none →
        (Solo.getSunTimes tlt lat day).neverSets = none →
        (Solo.getSunTimes tlt lat day).sunrise + (Solo.getSunTimes tlt lat day).sunset = 24
        ∧ (Solo.getSunTimes tlt lat day).dayLength
            = (Solo.getSunTimes tlt lat day).sunset - (Solo.getSunTimes tlt lat day).sunrise
        ∧ 0 ≤ (Solo.getSunTimes tlt lat day).dayLength
        ∧ (Solo.getSunTimes tlt lat day).dayLength ≤ 24) := by
  intro tlt lat day
  refine ⟨rfl, ?_, ?_, ?_, ?_⟩
  · intro h
    unfold Solo.getSunTimes
    rw [if_pos h]
  · intro h
    unfold Solo.getSunTimes
    rw [if_neg (by linarith), if_pos h]
  · intro h1 h2
    have heq : Solo.getSunTimes tlt lat day =
        ⟨12 - toDeg (Real.arccos (Solo.cosHa tlt lat day)) / 15,
         12 + toDeg (Real.arccos (Solo.cosHa tlt lat day)) / 15,
         (12 + toDeg (Real.arccos (Solo.cosHa tlt lat day)) / 15)
           - (12 - toDeg (Real.arccos (Solo.cosHa tlt lat day)) / 15),
         none, none⟩ := by
      unfold Solo.getSunTimes
      rw [if_neg h1, if_neg h2]
    rw [heq]
    exact ⟨rfl, rfl⟩
  · intro hr hs
    by_cases h1 : Solo.cosHa tlt lat day < -1
    · have heq : Solo.getSunTimes tlt lat day = ⟨0, 24, 24, none, some true⟩ := by
        unfold Solo.getSunTimes
        rw [if_pos h1]
      rw [heq] at hs
      exact absurd hs (by simp)
    by_cases h2 : 1 < Solo.cosHa tlt lat day
    · have heq : Solo.getSunTimes tlt lat day = ⟨12, 12, 0, some true, none⟩ := by
        unfold Solo.getSunTimes
        rw [if_neg h1, if_pos h2]
      rw [heq] at hr
      exact absurd hr (by simp)
    have hpi := Real.pi_pos
    have hc := Real.arccos_nonneg (Solo.cosHa tlt lat day)
    have hha0 : 0 ≤ toDeg (Real.arccos (Solo.cosHa tlt lat day)) / 15 := by
      unfold toDeg
      apply div_nonneg _ (by norm_num : (0:ℝ) ≤ 15)
      exact div_nonneg (mul_nonneg hc (by norm_num)) hpi.le
    have hha12 : toDeg (Real.arccos (Solo.cosHa tlt lat day)) / 15 ≤ 12 := by
      unfold toDeg
      rw [div_le_iff₀ (by norm_num : (0:ℝ) < 15), div_le_iff₀ hpi]
      nlinarith [Real.arccos_le_pi (Solo.cosHa tlt lat day)]
    have heq : Solo.getSunTimes tlt lat day =
        ⟨12 - toDeg (Real.arccos (Solo.cosHa tlt lat day)) / 15,
         12 + toDeg (Real.arccos (Solo.cosHa tlt lat day)) / 15,
         (12 + toDeg (Real.arccos (Solo.cosHa tlt lat day)) / 15)
           - (12 - toDeg (Real.arccos (Solo.cosHa tlt lat day)) / 15),
         none, none⟩ := by
      unfold Solo.getSunTimes
      rw [if_neg h1, if_neg h2]
    rw [heq]
    refine ⟨by ring, rfl, by linarith, by linarith⟩

/-- C10: only the taken branch of `getSunTimes` contributes its flag field:
midnight sun carries `neverSets` only, polar night carries `neverRises` only,
and the ordinary branch carries neither (both absent, not `false`). -/
theorem C10_sunTimes_flags : ∀ tlt lat day : ℝ,
    (Solo.cosHa tlt lat day < -1 →
        (Solo.getSunTimes tlt lat day).neverSets = some true
        ∧ (Solo.getSunTimes tlt lat day).neverRises = none)
    ∧ (1 < Solo.cosHa tlt lat day →
        (Solo.getSunTimes tlt lat day).neverRises = some true
        ∧ (Solo.getSunTimes tlt lat day).neverSets = none)
    ∧ (¬ Solo.cosHa tlt lat day < -1 → ¬ 1 < Solo.cosHa tlt lat day →
        (Solo.getSunTimes tlt lat day).neverRises = none
        ∧ (Solo.getSunTimes tlt lat day).neverSets = none) := by
  intro tlt lat day
  refine ⟨?_, ?_, ?_⟩
  · intro h
    unfold Solo.getSunTimes
    rw [if_pos h]
    exact ⟨rfl, rfl⟩
  · intro h
    unfold Solo.getSunTimes
    rw [if_neg (by linarith), if_pos h]
    exact ⟨rfl, rfl⟩
  · intro h1 h2
    unfold Solo.getSunTimes
    rw [if_neg h1, if_neg h2]
    exact ⟨rfl, rfl⟩

/-! Concrete inputs exercising all three `getSunTimes` branches.
With `tilt = 90`, `day = 80 + 365/6` the declination is exactly `π/3`, and
with `lat = ±60` we get `cosHa = ∓3`. -/

theorem declination_witness_input : Solo.getDeclination 90 (80 + 365 / 6) = Real.pi / 3 := by
  unfold Solo.getDeclination
  have h1 : toRad 90 = Real.pi / 2 := by
    unfold toRad
    ring
  have h2 : toRad (360 * ((80 : ℝ) + 365 / 6 - 80) / 365) = Real.pi / 3 := by
    unfold toRad
    norm_num
    ring
  rw [h1, h2, Real.sin_pi_div_two, one_mul]
  exact Real.arcsin_sin (by linarith [Real.pi_pos]) (by linarith [Real.pi_pos])

theorem tan_toRad_sixty : Real.tan (toRad 60) = Real.sqrt 3 := by
  have h : toRad 60 = Real.pi / 3 := by
    unfold toRad
    ring
  rw [h, Real.tan_pi_div_three]

theorem cosHa_witness_neg : Solo.cosHa 90 60 (80 + 365 / 6) < -1 := by
  unfold Solo.cosHa
  rw [declination_witness_input, tan_toRad_sixty, Real.tan_pi_div_three]
  nlinarith [Real.mul_self_sqrt (by norm_num : (0:ℝ) ≤ 3)]

theorem cosHa_witness_pos : 1 < Solo.cosHa 90 (-60) (80 + 365 / 6) := by
  unfold Solo.cosHa
  have h : toRad (-60) = -(Real.pi / 3) := by
    unfold toRad
    ring
  rw [declination_witness_input, h, Real.tan_neg, Real.tan_pi_div_three]
  nlinarith [Real.mul_self_sqrt (by norm_num : (0:ℝ) ≤ 3)]

theorem cosHa_witness_zero : Solo.cosHa 23.44 0 80 = 0 := by
  unfold Solo.cosHa
  have h : toRad 0 = 0 := by
    unfold toRad
    norm_num
  rw [h, Real.tan_zero]
  ring

/-- C2 witness: the theorem applied on inputs hitting all three branches. -/
theorem C2_sunTimes_witness :
    Solo.getSunTimes 90 60 (80 + 365 / 6) = ⟨0, 24, 24, none, some true⟩
    ∧ Solo.getSunTimes 90 (-60) (80 + 365 / 6) = ⟨12, 12, 0, some true, none⟩
    ∧ (Solo.getSunTimes 23.44 0 80).sunrise + (Solo.getSunTimes 23.44 0 80).sunset = 24 := by
  refine ⟨(C2_sunTimes 90 60 (80 + 365 / 6)).2.1 cosHa_witness_neg,
    (C2_sunTimes 90 (-60) (80 + 365 / 6)).2.2.1 cosHa_witness_pos, ?_⟩
  have h := (C2_sunTimes 23.44 0 80).2.2.2.1
    (by rw [cosHa_witness_zero]; norm_num) (by rw [cosHa_witness_zero]; norm_num)
  rw [h.1, h.2]
  ring

/-- C10 witness: the theorem applied on inputs hitting all three branches. -/
theorem C10_sunTimes_flags_witness :
    (Solo.getSunTimes 90 60 (80 + 365 / 6)).neverSets = some true
    ∧ (Solo.getSunTimes 90 (-60) (80 + 365 / 6)).neverRises = some true
    ∧ (Solo.getSunTimes 23.44 0 80).neverRises = none
    ∧ (Solo.getSunTimes 23.44 0 80).neverSets = none :=
  ⟨((C10_sunTimes_flags 90 60 (80 + 365 / 6)).1 cosHa_witness_neg).1,
   ((C10_sunTimes_flags 90 (-60) (80 + 365 / 6)).2.1 cosHa_witness_pos).1,
   (C10_sunTimes_flags 23.44 0 80).2.2
     (by rw [cosHa_witness_zero]; norm_num) (by rw [cosHa_witness_zero]; norm_num)⟩

/-! ## C1: azimuth via epsilon-padded denominators -/

/-- C1: the Solograph transform does not use a degenerate-case branch with
exact denominators; its `0.0001` additive padding is observable at an
ordinary input.  At hour angle 4 h, declination 0, latitude 60° the exact
spherical-trigonometry azimuth is `atan2` of a ratio exactly 2, i.e.
`toDeg (arctan 2 − π)`, but the code returns a strictly larger angle. -/
theorem C1_epsilon_distorts_azimuth :
    (Solo.equatorialToHorizontal 4 0 60).azimuth ≠ toDeg (Real.arctan 2 - Real.pi) := by
  have h60 : toRad 60 = Real.pi / 3 := by
    unfold toRad
    ring
  have hha : toRad ((4 : ℝ) * 15) = Real.pi / 3 := by
    unfold toRad
    ring
  have hsinAlt : Real.sin (0 : ℝ) * Real.sin (toRad 60)
      + Real.cos 0 * Real.cos (toRad 60) * Real.cos (toRad (4 * 15)) = 1 / 4 := by
    rw [h60, hha, Real.sin_zero, Real.cos_zero, Real.cos_pi_div_three]
    norm_num
  have hclamp : max (-1 : ℝ) (min 1 (1 / 4)) = 1 / 4 := by norm_num
  set c : ℝ := Real.sqrt (1 - (1 / 4 : ℝ) ^ 2) with hc_def
  have hc_pos : 0 < c := Real.sqrt_pos.mpr (by norm_num)
  have hs3_pos : 0 < Real.sqrt 3 := Real.sqrt_pos.mpr (by norm_num)
  have heval : (Solo.equatorialToHorizontal 4 0 60).azimuth
      = toDeg (atan2 (-Real.sin (Real.pi / 3) * 1 / (c + 0.0001))
          ((0 - Real.sin (Real.pi / 3) * (1 / 4)) / (1 / 2 * c + 0.0001))) := by
    show toDeg (atan2
        (-Real.sin (toRad (4 * 15)) * Real.cos 0
          / (Real.cos (Real.arcsin (max (-1) (min 1 (Real.sin 0 * Real.sin (toRad 60)
              + Real.cos 0 * Real.cos (toRad 60) * Real.cos (toRad (4 * 15)))))) + 0.0001))
        ((Real.sin 0 - Real.sin (toRad 60) * (Real.sin 0 * Real.sin (toRad 60)
            + Real.cos 0 * Real.cos (toRad 60) * Real.cos (toRad (4 * 15))))
          / (Real.cos (toRad 60) * Real.cos (Real.arcsin (max (-1) (min 1 (Real.sin 0 * Real.sin (toRad 60)
              + Real.cos 0 * Real.cos (toRad 60) * Real.cos (toRad (4 * 15)))))) + 0.0001)))
      = _
    rw [hsinAlt, hclamp, h60, hha, Real.cos_arcsin, Real.sin_zero, Real.cos_zero,
      Real.cos_pi_div_three]
  have hsin3 : Real.sin (Real.pi / 3) = Real.sqrt 3 / 2 := Real.sin_pi_div_three
  set y : ℝ := -Real.sin (Real.pi / 3) * 1 / (c + 0.0001) with hy_def
  set x : ℝ := (0 - Real.sin (Real.pi / 3) * (1 / 4)) / (1 / 2 * c + 0.0001) with hx_def
  have hy_neg : y < 0 := by
    rw [hy_def, hsin3]
    apply div_neg_of_neg_of_pos _ (by positivity)
    nlinarith
  have hx_neg : x < 0 := by
    rw [hx_def, hsin3]
    apply div_neg_of_neg_of_pos _ (by positivity)
    nlinarith
  have hatan2 : atan2 y x = Real.arctan (y / x) - Real.pi := by
    unfold atan2
    rw [if_neg (not_lt.mpr hx_neg.le),
      if_neg (fun hc => absurd hc.2 (not_le.mpr hy_neg)),
      if_pos ⟨hx_neg, hy_neg⟩]
  have hratio : y / x = (2 * c + 1 / 2500) / (c + 1 / 10000) := by
    rw [hy_def, hx_def, hsin3]
    have hne1 : c + (0.0001 : ℝ) ≠ 0 := by positivity
    have hne2 : (1 / 2 : ℝ) * c + 0.0001 ≠ 0 := by positivity
    have hne3 : c + (1 / 10000 : ℝ) ≠ 0 := by positivity
    have hne4 : Real.sqrt 3 ≠ 0 := ne_of_gt hs3_pos
    field_simp
    ring
  have hgt : 2 < y / x := by
    rw [hratio, lt_div_iff₀ (by positivity)]
    linarith
  have harct : Real.arctan 2 < Real.arctan (y / x) := Real.arctan_strictMono hgt
  rw [heval, hatan2]
  have hfinal : toDeg (Real.arctan 2 - Real.pi) < toDeg (Real.arctan (y / x) - Real.pi) := by
    unfold toDeg
    have hpi := Real.pi_pos
    gcongr
  exact hfinal.ne'

/-! ## C9: trace shapes -/

/-- C9: `getSunPath(day)` yields exactly 288 points with `hour = 5i/60`
(5-minute steps), strictly increasing across `[0, 24)`; and
`initializeHourTraces` stores, for each clock hour 5..19, a 365-entry trace
whose `i`-th record has `day = i + 1` (days 1..365 in ascending order). -/
theorem C9_traces : ∀ tlt lat day : ℝ,
    (Solo.getSunPath tlt lat day).length = 288
    ∧ (∀ (i : ℕ) (h : i < (Solo.getSunPath tlt lat day).length),
        ((Solo.getSunPath tlt lat day).get ⟨i, h⟩).hour = 5 * (i : ℝ) / 60)
    ∧ (∀ (i j : ℕ) (hi : i < (Solo.getSunPath tlt lat day).length)
        (hj : j < (Solo.getSunPath tlt lat day).length), i < j →
        ((Solo.getSunPath tlt lat day).get ⟨i, hi⟩).hour
          < ((Solo.getSunPath tlt lat day).get ⟨j, hj⟩).hour)
    ∧ (∀ (i : ℕ) (h : i < (Solo.getSunPath tlt lat day).length),
        0 ≤ ((Solo.getSunPath tlt lat day).get ⟨i, h⟩).hour
        ∧ ((Solo.getSunPath tlt lat day).get ⟨i, h⟩).hour < 24)
    ∧ (Solo.hourTraces tlt lat).length = 15
    ∧ (∀ (k : ℕ) (h : k < (Solo.hourTraces tlt lat).length),
        ((Solo.hourTraces tlt lat).get ⟨k, h⟩).1 = k + 5
        ∧ ((Solo.hourTraces tlt lat).get ⟨k, h⟩).2 = Solo.hourTrace tlt lat ((k : ℝ) + 5))
    ∧ (∀ hour : ℝ, (Solo.hourTrace tlt lat hour).length = 365)
    ∧ (∀ (hour : ℝ) (i : ℕ) (h : i < (Solo.hourTrace tlt lat hour).length),
        ((Solo.hourTrace tlt lat hour).get ⟨i, h⟩).day = (i : ℝ) + 1) := by
  intro tlt lat day
  refine ⟨by simp [Solo.getSunPath], ?_, ?_, ?_, by simp [Solo.hourTraces], ?_, ?_, ?_⟩
  · intro i h
    simp [Solo.getSunPath, List.get_eq_getElem]
  · intro i j hi hj hij
    simp only [Solo.getSunPath, List.get_eq_getElem, List.getElem_map, List.getElem_range]
    have : (i : ℝ) < (j : ℝ) := Nat.cast_lt.mpr hij
    show 5 * (i : ℝ) / 60 < 5 * (j : ℝ) / 60
    linarith
  · intro i h
    have h288 : i < 288 := by simpa [Solo.getSunPath] using h
    have hcast : (i : ℝ) < 288 := by exact_mod_cast h288
    simp only [Solo.getSunPath, List.get_eq_getElem, List.getElem_map, List.getElem_range]
    constructor
    · show 0 ≤ 5 * (i : ℝ) / 60
      positivity
    · show 5 * (i : ℝ) / 60 < 24
      linarith
  · intro k h
    simp [Solo.hourTraces, List.get_eq_getElem]
  · intro hour
    simp [Solo.hourTrace]
  · intro hour i h
    simp [Solo.hourTrace, Solo.tracePoint, List.get_eq_getElem]

/-! ## C3: EOT-shifted vs unshifted hour angle -/

theorem sky_meanAnomaly80 : Sky.getMeanAnomaly 3 80 = 2 * Real.pi * 77 / 365 := by
  unfold Sky.getMeanAnomaly toRad
  rw [jsMod_442_365]
  ring

/-- The day-80 equation-of-center correction of the sky view is positive. -/
theorem sky_corr80_pos :
    0 < 2 * 0.0167 * Real.sin (2 * Real.pi * 77 / 365)
      + 1.25 * 0.0167 * 0.0167 * Real.sin (2 * (2 * Real.pi * 77 / 365)) := by
  nlinarith [sin_M80_pos, sin_2M80_pos]

/-- The day-80 equation-of-center correction of the sky view is below `π`. -/
theorem sky_corr80_lt_pi :
    2 * 0.0167 * Real.sin (2 * Real.pi * 77 / 365)
      + 1.25 * 0.0167 * 0.0167 * Real.sin (2 * (2 * Real.pi * 77 / 365)) < Real.pi := by
  nlinarith [Real.sin_le_one (2 * Real.pi * 77 / 365),
    Real.sin_le_one (2 * (2 * Real.pi * 77 / 365)), Real.pi_gt_three]

/-- On day 80 the sky view's Kepler-corrected declination is strictly
negative (the Solograph's is exactly 0 there). -/
theorem sky_decl80_neg : Sky.getDeclination 23.44 0.0167 3 80 < 0 := by
  show Real.arcsin (Real.sin (toRad 23.44) *
      Real.sin (Sky.getTrueAnomaly 0.0167 (Sky.getMeanAnomaly 3 80)
        + toRad (360 * ((3 : ℝ) - 80) / 365) + Real.pi)) < 0
  have hArg : Sky.getTrueAnomaly 0.0167 (Sky.getMeanAnomaly 3 80)
      + toRad (360 * ((3 : ℝ) - 80) / 365) + Real.pi
      = (2 * 0.0167 * Real.sin (2 * Real.pi * 77 / 365)
          + 1.25 * 0.0167 * 0.0167 * Real.sin (2 * (2 * Real.pi * 77 / 365))) + Real.pi := by
    unfold Sky.getTrueAnomaly toRad
    rw [sky_meanAnomaly80]
    ring
  rw [hArg, Real.sin_add_pi]
  have hsc : 0 < Real.sin (2 * 0.0167 * Real.sin (2 * Real.pi * 77 / 365)
      + 1.25 * 0.0167 * 0.0167 * Real.sin (2 * (2 * Real.pi * 77 / 365))) :=
    Real.sin_pos_of_pos_of_lt_pi sky_corr80_pos sky_corr80_lt_pi
  have htilt : 0 < Real.sin (toRad 23.44) := by
    apply Real.sin_pos_of_pos_of_lt_pi
    · unfold toRad
      positivity
    · unfold toRad
      nlinarith [Real.pi_pos]
  rw [Real.arcsin_lt_zero]
  exact mul_neg_of_pos_of_neg htilt (by linarith)

/-- At the north pole the sky view's altitude is the declination itself
(the `cos lat` term vanishes), for every hour angle. -/
theorem sky_eth_alt_at_pole (hourAngle dec : ℝ) :
    (Sky.equatorialToHorizontal hourAngle dec 90).altitude
      = toDeg (Real.arcsin (Real.sin dec)) := by
  have h90 : toRad 90 = Real.pi / 2 := by
    unfold toRad
    ring
  show toDeg (Real.arcsin (Real.sin dec * Real.sin (toRad 90)
      + Real.cos dec * Real.cos (toRad 90) * Real.cos (toRad (hourAngle * 15))))
    = toDeg (Real.arcsin (Real.sin dec))
  rw [h90, Real.sin_pi_div_two, Real.cos_pi_div_two]
  norm_num

theorem solo_decl80_zero : Solo.getDeclination 23.44 80 = 0 := by
  unfold Solo.getDeclination
  have h : toRad (360 * ((80 : ℝ) - 80) / 365) = 0 := by
    unfold toRad
    norm_num
  rw [h, Real.sin_zero, mul_zero, Real.arcsin_zero]

/-- The Solograph hour-trace point for hour 12, day 80, latitude 90 has
altitude exactly 0. -/
theorem solo_trace_alt80 : (Solo.tracePos 23.44 90 12 80).altitude = 0 := by
  have h90 : toRad 90 = Real.pi / 2 := by
    unfold toRad
    ring
  have hha : toRad (((12 : ℝ) - 12) * 15) = 0 := by
    unfold toRad
    norm_num
  show toDeg (Real.arcsin (max (-1) (min 1
      (Real.sin (Solo.getDeclination 23.44 80) * Real.sin (toRad 90)
        + Real.cos (Solo.getDeclination 23.44 80) * Real.cos (toRad 90)
          * Real.cos (toRad (((12 : ℝ) - 12) * 15)))))) = 0
  rw [solo_decl80_zero, h90, hha, Real.sin_zero, Real.cos_zero,
    Real.sin_pi_div_two, Real.cos_pi_div_two]
  norm_num [Real.arcsin_zero]
  unfold toDeg
  norm_num

/-- On day 80 the sky view's equation of time (hours) is strictly negative:
the obliquity term vanishes (`L = 0`) and the eccentricity term is negative. -/
theorem sky_eot80_neg : Sky.getEquationOfTime 23.44 0.0167 3 80 < 0 := by
  have hL : toRad (360 * ((80 : ℝ) - 80) / 365) = 0 := by
    unfold toRad
    norm_num
  show (-2 * 0.0167 * Real.sin (Sky.getMeanAnomaly 3 80)
      - 1.25 * 0.0167 * 0.0167 * Real.sin (2 * Sky.getMeanAnomaly 3 80)
      + (Real.tan (toRad 23.44 / 2) * Real.tan (toRad 23.44 / 2)
          * Real.sin (2 * toRad (360 * ((80 : ℝ) - 80) / 365))
        - 0.5 * (Real.tan (toRad 23.44 / 2) * Real.tan (toRad 23.44 / 2))
          * (Real.tan (toRad 23.44 / 2) * Real.tan (toRad 23.44 / 2))
          * Real.sin (4 * toRad (360 * ((80 : ℝ) - 80) / 365))))
      * 24 / (2 * Real.pi) < 0
  rw [hL, sky_meanAnomaly80]
  norm_num
  apply div_neg_of_neg_of_pos
  · nlinarith [sin_M80_pos, sin_2M80_pos]
  · positivity

/-- C3: the sky view computes the hour angle as `(hour + EOT(day)) − 12`,
the Solograph hour traces use `hour − 12` with no EOT shift, and the two
generation paths disagree: at latitude 90, day 80, hour 12 the equation of
time is nonzero and the two sun positions differ. -/
theorem C3_hourAngle_divergence :
    (∀ tlt e pday lat day hour : ℝ,
        Sky.getSunPosition tlt e pday lat day hour =
          Sky.equatorialToHorizontal (hour + Sky.getEquationOfTime tlt e pday day - 12)
            (Sky.getDeclination tlt e pday day) lat)
    ∧ (∀ tlt lat hour day : ℝ,
        Solo.tracePos tlt lat hour day =
          Solo.equatorialToHorizontal (hour - 12) (Solo.getDeclination tlt day) lat)
    ∧ (∃ lat day hour : ℝ,
        Sky.getEquationOfTime Sky.tilt Sky.eccentricity Sky.perihelionDay day ≠ 0
        ∧ Sky.getSunPosition Sky.tilt Sky.eccentricity Sky.perihelionDay lat day hour
            ≠ Solo.tracePos Solo.tilt lat hour day) := by
  refine ⟨fun _ _ _ _ _ _ => rfl, fun _ _ _ _ => rfl, 90, 80, 12, ?_, ?_⟩
  · show Sky.getEquationOfTime 23.44 0.0167 3 80 ≠ 0
    exact ne_of_lt sky_eot80_neg
  · show Sky.getSunPosition 23.44 0.0167 3 90 80 12 ≠ Solo.tracePos 23.44 90 12 80
    intro hEq
    have halt := congrArg SolarPosition.altitude hEq
    rw [solo_trace_alt80] at halt
    have halt2 : (Sky.getSunPosition 23.44 0.0167 3 90 80 12).altitude
        = toDeg (Real.arcsin (Real.sin (Sky.getDeclination 23.44 0.0167 3 80))) :=
      sky_eth_alt_at_pole (12 + Sky.getEquationOfTime 23.44 0.0167 3 80 - 12)
        (Sky.getDeclination 23.44 0.0167 3 80)
    have hrange1 : -(Real.pi / 2) ≤ Sky.getDeclination 23.44 0.0167 3 80 := by
      unfold Sky.getDeclination
      exact Real.neg_pi_div_two_le_arcsin _
    have hrange2 : Sky.getDeclination 23.44 0.0167 3 80 ≤ Real.pi / 2 := by
      unfold Sky.getDeclination
      exact Real.arcsin_le_pi_div_two _
    rw [Real.arcsin_sin hrange1 hrange2] at halt2
    have hneg : toDeg (Sky.getDeclination 23.44 0.0167 3 80) < 0 := by
      unfold toDeg
      apply div_neg_of_neg_of_pos _ Real.pi_pos
      nlinarith [sky_decl80_neg]
    rw [halt2] at halt
    linarith

/-- C9 witness: the theorem applied at `tilt 23.44`, `latitude 40`,
`day 172`, concrete indices. -/
theorem C9_traces_witness :
    ((Solo.getSunPath 23.44 40 172).get ⟨0, by simp [Solo.getSunPath]⟩).hour
        = 5 * ((0 : ℕ) : ℝ) / 60
    ∧ ((Solo.getSunPath 23.44 40 172).get ⟨0, by simp [Solo.getSunPath]⟩).hour
        < ((Solo.getSunPath 23.44 40 172).get ⟨1, by simp [Solo.getSunPath]⟩).hour
    ∧ ((Solo.hourTrace 23.44 40 12).get ⟨0, by simp [Solo.hourTrace]⟩).day
        = ((0 : ℕ) : ℝ) + 1 :=
  ⟨(C9_traces 23.44 40 172).2.1 0 (by simp [Solo.getSunPath]),
   (C9_traces 23.44 40 172).2.2.1 0 1 (by simp [Solo.getSunPath])
     (by simp [Solo.getSunPath]) (by norm_num),
   (C9_traces 23.44 40 172).2.2.2.2.2.2.2 12 0 (by simp [Solo.hourTrace])⟩

/-! ## C8: orbital speed and its yearly mean -/

theorem getTrueAnomaly_corr100 (M : ℝ) :
    Sim.getTrueAnomaly (1 / 100) M = M + corr100 M := by
  unfold Sim.getTrueAnomaly corr100
  ring

/-- With `perihelionDay = 365` the mean anomaly on integer day `k < 365` is
exactly the grid angle `2πk/365`. -/
theorem meanAnomaly_grid (k : ℕ) (hk : k < 365) :
    Sim.getMeanAnomaly 365 (k : ℝ) = gridAngle k := by
  unfold Sim.getMeanAnomaly toRad gridAngle
  have harg : (k : ℝ) - 365 + 365 = (k : ℝ) := by ring
  rw [harg, jsMod_of_nonneg (Nat.cast_nonneg k) (by norm_num)]
  have hfl : ⌊(k : ℝ) / 365⌋ = 0 := by
    rw [Int.floor_eq_zero_iff]
    constructor
    · positivity
    · rw [div_lt_one (by norm_num)]
      exact_mod_cast hk
  rw [hfl]
  push_cast
  ring

/-- Discrete orthogonality: for `1 ≤ m < 365` the cosines of `m` times the
365-point grid sum to zero. -/
theorem sum_cos_grid (m : ℕ) (hm1 : 1 ≤ m) (hm2 : m < 365) :
    ∑ k ∈ Finset.range 365, Real.cos (m * gridAngle k) = 0 := by
  set ζ : ℂ := Complex.exp ((2 * Real.pi * m / 365 : ℝ) * Complex.I) with hζ
  have hζ_ne : ζ ≠ 1 := by
    intro hone
    rw [hζ, Complex.exp_eq_one_iff] at hone
    obtain ⟨n, hn⟩ := hone
    have him := congrArg Complex.im hn
    simp [Complex.mul_im, Complex.mul_re] at him
    have hπ := Real.pi_pos
    have hm1R : (1 : ℝ) ≤ (m : ℝ) := by exact_mod_cast hm1
    have hm2R : (m : ℝ) < 365 := by exact_mod_cast hm2
    rcases le_or_lt (n : ℝ) 0 with hn0 | hn0
    · have hR : (n : ℝ) * (2 * Real.pi) ≤ 0 :=
        mul_nonpos_of_nonpos_of_nonneg hn0 (by positivity)
      have hL : 0 < 2 * Real.pi * m / 365 := by positivity
      nlinarith [him]
    · have hn1 : (1 : ℝ) ≤ (n : ℝ) := by
        have : (1 : ℤ) ≤ n := by exact_mod_cast hn0
        exact_mod_cast this
      have hL : 2 * Real.pi * m / 365 < 2 * Real.pi := by
        rw [div_lt_iff₀ (by norm_num)]
        nlinarith
      have hR : 2 * Real.pi ≤ (n : ℝ) * (2 * Real.pi) :=
        le_mul_of_one_le_left (by positivity) hn1
      nlinarith [him]
  have hζ_pow : ζ ^ 365 = 1 := by
    rw [hζ, ← Complex.exp_nat_mul, Complex.exp_eq_one_iff]
    refine ⟨m, ?_⟩
    push_cast
    ring
  have hgeom : ∑ k ∈ Finset.range 365, ζ ^ k = 0 := by
    rw [geom_sum_eq hζ_ne, hζ_pow]
    simp
  have hterm : ∀ k : ℕ, Real.cos (m * gridAngle k) = (ζ ^ k).re := by
    intro k
    rw [hζ, ← Complex.exp_nat_mul]
    have harg : (k : ℂ) * ((2 * Real.pi * m / 365 : ℝ) * Complex.I)
        = ((m * gridAngle k : ℝ) : ℂ) * Complex.I := by
      unfold gridAngle
      push_cast
      ring
    rw [harg, Complex.exp_ofReal_mul_I_re]
  calc ∑ k ∈ Finset.range 365, Real.cos (m * gridAngle k)
      = ∑ k ∈ Finset.range 365, (ζ ^ k).re :=
        Finset.sum_congr rfl fun k _ => hterm k
    _ = (∑ k ∈ Finset.range 365, ζ ^ k).re := (Complex.re_sum _ _).symm
    _ = 0 := by rw [hgeom]; rfl

theorem sum_cos_grid1 : ∑ k ∈ Finset.range 365, Real.cos (gridAngle k) = 0 := by
  have h := sum_cos_grid 1 le_rfl (by norm_num)
  simpa using h

theorem sum_cos_grid_two : ∑ k ∈ Finset.range 365, Real.cos (2 * gridAngle k) = 0 := by
  have h := sum_cos_grid 2 (by norm_num) (by norm_num)
  simpa using h

theorem sum_cos_grid_three : ∑ k ∈ Finset.range 365, Real.cos (3 * gridAngle k) = 0 := by
  have h := sum_cos_grid 3 (by norm_num) (by norm_num)
  simpa using h

theorem sum_cos_grid_four : ∑ k ∈ Finset.range 365, Real.cos (4 * gridAngle k) = 0 := by
  have h := sum_cos_grid 4 (by norm_num) (by norm_num)
  simpa using h

theorem sum_sin_sq_grid : ∑ k ∈ Finset.range 365, Real.sin (gridAngle k) ^ 2 = 365 / 2 := by
  have hpt : ∀ x : ℝ, Real.sin x ^ 2 = 1 / 2 - Real.cos (2 * x) / 2 := by
    intro x
    have h1 := Real.sin_sq_add_cos_sq x
    have h2 := Real.cos_sq x
    linarith
  rw [Finset.sum_congr rfl fun k _ => hpt (gridAngle k), Finset.sum_sub_distrib]
  rw [show (∑ k ∈ Finset.range 365, Real.cos (2 * gridAngle k) / 2)
      = (∑ k ∈ Finset.range 365, Real.cos (2 * gridAngle k)) / 2 from
    (Finset.sum_div _ _ _).symm]
  rw [sum_cos_grid_two, Finset.sum_const, Finset.card_range]
  norm_num

theorem sum_sin_mul_sin_two :
    ∑ k ∈ Finset.range 365, Real.sin (gridAngle k) * Real.sin (2 * gridAngle k) = 0 := by
  have hpt : ∀ x : ℝ, Real.sin x * Real.sin (2 * x)
      = Real.cos x / 2 - Real.cos (3 * x) / 2 := by
    intro x
    have h1 := Real.cos_sub (2 * x) x
    have h2 := Real.cos_add (2 * x) x
    have e1 : 2 * x - x = x := by ring
    have e2 : 2 * x + x = 3 * x := by ring
    rw [e1] at h1
    rw [e2] at h2
    linear_combination (h2 - h1) / 2
  rw [Finset.sum_congr rfl fun k _ => hpt (gridAngle k), Finset.sum_sub_distrib]
  rw [show (∑ k ∈ Finset.range 365, Real.cos (gridAngle k) / 2)
      = (∑ k ∈ Finset.range 365, Real.cos (gridAngle k)) / 2 from
    (Finset.sum_div _ _ _).symm]
  rw [show (∑ k ∈ Finset.range 365, Real.cos (3 * gridAngle k) / 2)
      = (∑ k ∈ Finset.range 365, Real.cos (3 * gridAngle k)) / 2 from
    (Finset.sum_div _ _ _).symm]
  rw [sum_cos_grid1, sum_cos_grid_three]
  norm_num

theorem sum_sin_mul_sin_three :
    ∑ k ∈ Finset.range 365, Real.sin (gridAngle k) * Real.sin (3 * gridAngle k) = 0 := by
  have hpt : ∀ x : ℝ, Real.sin x * Real.sin (3 * x)
      = Real.cos (2 * x) / 2 - Real.cos (4 * x) / 2 := by
    intro x
    have h1 := Real.cos_sub (3 * x) x
    have h2 := Real.cos_add (3 * x) x
    have e1 : 3 * x - x = 2 * x := by ring
    have e2 : 3 * x + x = 4 * x := by ring
    rw [e1] at h1
    rw [e2] at h2
    linear_combination (h2 - h1) / 2
  rw [Finset.sum_congr rfl fun k _ => hpt (gridAngle k), Finset.sum_sub_distrib]
  rw [show (∑ k ∈ Finset.range 365, Real.cos (2 * gridAngle k) / 2)
      = (∑ k ∈ Finset.range 365, Real.cos (2 * gridAngle k)) / 2 from
    (Finset.sum_div _ _ _).symm]
  rw [show (∑ k ∈ Finset.range 365, Real.cos (4 * gridAngle k) / 2)
      = (∑ k ∈ Finset.range 365, Real.cos (4 * gridAngle k)) / 2 from
    (Finset.sum_div _ _ _).symm]
  rw [sum_cos_grid_two, sum_cos_grid_four]
  norm_num

/-- The first-order term of the yearly cosine sum: the grid sum of
`sin θ · corr100 θ` equals `a · 365/2` for the leading coefficient `a`. -/
theorem sum_sin_mul_corr :
    ∑ k ∈ Finset.range 365, Real.sin (gridAngle k) * corr100 (gridAngle k)
      = (2 * (1 / 100) - (1 / 100) * (1 / 100) * (1 / 100) / 4) * (365 / 2) := by
  have hpt : ∀ x : ℝ, Real.sin x * corr100 x
      = (2 * (1 / 100) - (1 / 100) * (1 / 100) * (1 / 100) / 4) * Real.sin x ^ 2
        + (5 * (1 / 100) * (1 / 100) / 4) * (Real.sin x * Real.sin (2 * x))
        + (13 * (1 / 100) * (1 / 100) * (1 / 100) / 12) * (Real.sin x * Real.sin (3 * x)) := by
    intro x
    unfold corr100
    ring
  rw [Finset.sum_congr rfl fun k _ => hpt (gridAngle k)]
  rw [Finset.sum_add_distrib, Finset.sum_add_distrib, ← Finset.mul_sum, ← Finset.mul_sum,
    ← Finset.mul_sum]
  rw [sum_sin_sq_grid, sum_sin_mul_sin_two, sum_sin_mul_sin_three]
  ring

theorem corr100_abs_le (x : ℝ) : |corr100 x| ≤ 21 / 1000 := by
  unfold corr100
  have h1 := Real.abs_sin_le_one x
  have h2 := Real.abs_sin_le_one (2 * x)
  have h3 := Real.abs_sin_le_one (3 * x)
  refine (abs_add_three _ _ _).trans ?_
  rw [abs_mul, abs_mul, abs_mul]
  have hc1 : |(2 * (1 / 100) - (1 / 100) * (1 / 100) * (1 / 100) / 4 : ℝ)|
      = 2 * (1 / 100) - (1 / 100) * (1 / 100) * (1 / 100) / 4 := by
    rw [abs_of_pos]
    norm_num
  have hc2 : |(5 * (1 / 100) * (1 / 100) / 4 : ℝ)| = 5 * (1 / 100) * (1 / 100) / 4 := by
    rw [abs_of_pos]
    norm_num
  have hc3 : |(13 * (1 / 100) * (1 / 100) * (1 / 100) / 12 : ℝ)|
      = 13 * (1 / 100) * (1 / 100) * (1 / 100) / 12 := by
    rw [abs_of_pos]
    norm_num
  rw [hc1, hc2, hc3]
  nlinarith [abs_nonneg (Real.sin x), abs_nonneg (Real.sin (2 * x)),
    abs_nonneg (Real.sin (3 * x))]

/-- Taylor error of the per-day term: for `|x| ≤ 21/1000`,
`|cos x − 1| + |sin x − x| ≤ 1/4000`. -/
theorem per_term_taylor_err {x : ℝ} (hx : |x| ≤ 21 / 1000) :
    |Real.cos x - 1| + |Real.sin x - x| ≤ 1 / 4000 := by
  have hx1 : |x| ≤ 1 := by linarith
  have hc := Real.cos_bound hx1
  have hs := Real.sin_bound hx1
  have habs0 := abs_nonneg x
  have habs2 : x ^ 2 ≤ (21 / 1000) ^ 2 := by
    have := pow_le_pow_left₀ habs0 hx 2
    rwa [sq_abs] at this
  have habs3 : |x| ^ 3 ≤ (21 / 1000) ^ 3 := pow_le_pow_left₀ habs0 hx 3
  have habs4 : |x| ^ 4 ≤ (21 / 1000) ^ 4 := pow_le_pow_left₀ habs0 hx 4
  have h1 : |Real.cos x - 1| ≤ x ^ 2 / 2 + |x| ^ 4 * (5 / 96) := by
    have hsplit : Real.cos x - 1 = (Real.cos x - (1 - x ^ 2 / 2)) + -(x ^ 2 / 2) := by
      ring
    rw [hsplit]
    refine (abs_add _ _).trans ?_
    have habs_sq : |(-(x ^ 2 / 2))| = x ^ 2 / 2 := by
      rw [abs_neg, abs_of_nonneg (by positivity)]
    linarith
  have h2 : |Real.sin x - x| ≤ |x| ^ 3 / 6 + |x| ^ 4 * (5 / 96) := by
    have hsplit : Real.sin x - x = (Real.sin x - (x - x ^ 3 / 6)) + -(x ^ 3 / 6) := by
      ring
    rw [hsplit]
    refine (abs_add _ _).trans ?_
    have habs_cube : |(-(x ^ 3 / 6))| = |x| ^ 3 / 6 := by
      rw [abs_neg, abs_div, abs_pow]
      norm_num
    linarith
  nlinarith

/-- The per-day remainder of the cosine decomposition is at most `1/4000`. -/
theorem err_term_le (k : ℕ) :
    |Real.cos (gridAngle k) * (Real.cos (corr100 (gridAngle k)) - 1)
      - Real.sin (gridAngle k) * (Real.sin (corr100 (gridAngle k)) - corr100 (gridAngle k))|
      ≤ 1 / 4000 := by
  have h := per_term_taylor_err (corr100_abs_le (gridAngle k))
  have hc1 := Real.abs_cos_le_one (gridAngle k)
  have hs1 := Real.abs_sin_le_one (gridAngle k)
  have htri : |Real.cos (gridAngle k) * (Real.cos (corr100 (gridAngle k)) - 1)
      - Real.sin (gridAngle k) * (Real.sin (corr100 (gridAngle k)) - corr100 (gridAngle k))|
      ≤ |Real.cos (gridAngle k) * (Real.cos (corr100 (gridAngle k)) - 1)|
        + |Real.sin (gridAngle k) * (Real.sin (corr100 (gridAngle k)) - corr100 (gridAngle k))| := by
    rw [sub_eq_add_neg]
    refine (abs_add _ _).trans ?_
    rw [abs_neg]
  rw [abs_mul, abs_mul] at htri
  nlinarith [abs_nonneg (Real.cos (corr100 (gridAngle k)) - 1),
    abs_nonneg (Real.sin (corr100 (gridAngle k)) - corr100 (gridAngle k)),
    abs_nonneg (Real.cos (gridAngle k)), abs_nonneg (Real.sin (gridAngle k))]

/-- The yearly sum of `cos(trueAnomaly)` over the grid is strictly negative
at eccentricity `1/100`. -/
theorem sum_cos_nu_neg :
    ∑ k ∈ Finset.range 365, Real.cos (gridAngle k + corr100 (gridAngle k)) < 0 := by
  have hdecomp : ∀ k : ℕ, Real.cos (gridAngle k + corr100 (gridAngle k))
      = Real.cos (gridAngle k)
        + (Real.cos (gridAngle k) * (Real.cos (corr100 (gridAngle k)) - 1)
          - Real.sin (gridAngle k) * (Real.sin (corr100 (gridAngle k)) - corr100 (gridAngle k)))
        - Real.sin (gridAngle k) * corr100 (gridAngle k) := by
    intro k
    rw [Real.cos_add]
    ring
  rw [Finset.sum_congr rfl fun k _ => hdecomp k, Finset.sum_sub_distrib,
    Finset.sum_add_distrib, sum_cos_grid1, sum_sin_mul_corr]
  have hsum_err : ∑ k ∈ Finset.range 365,
      |Real.cos (gridAngle k) * (Real.cos (corr100 (gridAngle k)) - 1)
        - Real.sin (gridAngle k) * (Real.sin (corr100 (gridAngle k)) - corr100 (gridAngle k))|
      ≤ 365 * (1 / 4000) := by
    calc ∑ k ∈ Finset.range 365,
        |Real.cos (gridAngle k) * (Real.cos (corr100 (gridAngle k)) - 1)
          - Real.sin (gridAngle k) * (Real.sin (corr100 (gridAngle k)) - corr100 (gridAngle k))|
        ≤ ∑ _k ∈ Finset.range 365, (1 / 4000 : ℝ) :=
          Finset.sum_le_sum fun k _ => err_term_le k
      _ = 365 * (1 / 4000) := by
          rw [Finset.sum_const, Finset.card_range, nsmul_eq_mul]
          norm_num
  have herr := (Finset.abs_sum_le_sum_abs
    (fun k => Real.cos (gridAngle k) * (Real.cos (corr100 (gridAngle k)) - 1)
      - Real.sin (gridAngle k) * (Real.sin (corr100 (gridAngle k)) - corr100 (gridAngle k)))
    (Finset.range 365)).trans hsum_err
  have hb := (abs_le.mp herr).2
  linarith

/-- C8 counterexample: with eccentricity `1/100` and `perihelionDay = 365`
the average of `getOrbitalSpeed` over the 365 days is strictly below 1, so
it is not "normalized so that the yearly mean equals 1.0". -/
theorem C8_counterexample :
    (∑ k ∈ Finset.range 365, Sim.getOrbitalSpeed (1 / 100) 365 (k : ℝ)) / 365 ≠ 1 := by
  have hsum : ∑ k ∈ Finset.range 365, Sim.getOrbitalSpeed (1 / 100) 365 (k : ℝ)
      = 365 + (1 / 100) * ∑ k ∈ Finset.range 365,
          Real.cos (gridAngle k + corr100 (gridAngle k)) := by
    have hpt : ∀ k ∈ Finset.range 365, Sim.getOrbitalSpeed (1 / 100) 365 (k : ℝ)
        = 1 + (1 / 100) * Real.cos (gridAngle k + corr100 (gridAngle k)) := by
      intro k hk
      unfold Sim.getOrbitalSpeed
      rw [meanAnomaly_grid k (Finset.mem_range.mp hk), getTrueAnomaly_corr100]
    rw [Finset.sum_congr rfl hpt, Finset.sum_add_distrib, Finset.sum_const,
      Finset.card_range, ← Finset.mul_sum, nsmul_eq_mul]
    norm_num
  have hneg := sum_cos_nu_neg
  rw [hsum]
  intro h
  rw [div_eq_one_iff_eq (by norm_num : (365 : ℝ) ≠ 0)] at h
  nlinarith

/-- C8 amended: `getOrbitalSpeed(day)` is exactly
`1 + e·cos(trueAnomaly(meanAnomaly(day)))` with no further normalization;
the yearly mean is exactly 1 in the circular case `e = 0` (but not in
general, see the counterexample). -/
theorem C8_orbitalSpeed : ∀ e pday day : ℝ,
    Sim.getOrbitalSpeed e pday day
      = 1 + e * Real.cos (Sim.getTrueAnomaly e (Sim.getMeanAnomaly pday day))
    ∧ (∑ k ∈ Finset.range 365, Sim.getOrbitalSpeed 0 pday (k : ℝ)) / 365 = 1 := by
  intro e pday day
  refine ⟨rfl, ?_⟩
  have hpt : ∀ k ∈ Finset.range 365, Sim.getOrbitalSpeed 0 pday (k : ℝ) = 1 := by
    intro k _
    unfold Sim.getOrbitalSpeed
    norm_num
  rw [Finset.sum_congr rfl hpt, Finset.sum_const, Finset.card_range, nsmul_eq_mul]
  norm_num

end Analemma
